import Mathlib

/-!
Verification of the intelligent-email-agent heuristic urgency-scoring and
AI-response-blending pipeline.  The JavaScript sources under
`src/src/routes/agent.js` and `src/ai_agent_simple.js` are shallowly embedded
here: strings are modelled as Lean `String`s over code points (ASCII inputs
behave as in JS), JS numbers are modelled as exact rationals (`ℚ`), and the
external text-generation service's reply is an explicit input of each
operation.
-/

set_option allowUnsafeReducibility true

attribute [local semireducible] Rat.add Rat.mul Rat.inv Rat.sub Rat.neg Rat.div Rat.ofScientific

namespace EmailAgent

/-! ### JS string primitives (on code-point lists) -/

/-- JS `String.prototype.toLowerCase`, restricted to the ASCII mapping of
`Char.toLower` (all keywords in the source are ASCII). -/
def lower (s : String) : String := String.mk (s.toList.map Char.toLower)

/-- Substring occurrence test on code-point lists (`needle` occurs in the
second argument). -/
def isSubstr (needle : List Char) : List Char → Bool
  | [] => needle.isEmpty
  | c :: t => needle.isPrefixOf (c :: t) || isSubstr needle t

/-- JS `hay.includes(needle)`. -/
def includes (hay needle : String) : Bool := isSubstr needle.toList hay.toList

/-- JS `s.startsWith(p)`. -/
def jsStartsWith (s p : String) : Bool := p.toList.isPrefixOf s.toList

/-- Left-pad a digit string with zeros to width `k`. -/
def padZeros (s : String) (k : Nat) : String :=
  if s.length < k then String.mk (List.replicate (k - s.length) (Char.ofNat 48)) ++ s
  else s

/-- Smallest exponent `k` with `den ∣ 10 ^ k`, when one exists (i.e. when the
denominator factors into 2s and 5s); searched up to `den`, which is a safe
bound for such denominators. -/
def decDigits (den : Nat) : Option Nat :=
  (List.range (den + 1)).find? (fun k => 10 ^ k % den == 0)

/-- JS number-to-string conversion for the exact rationals this model
produces (integers and finite decimal fractions).  Rationals with no finite
decimal expansion (which never arise from parsed JSON decimal literals or the
scorer's half-point weights) render as `num/den`. -/
def ratStr (q : ℚ) : String :=
  if q.den = 1 then toString q.num
  else
    match decDigits q.den with
    | some k =>
      let sign := if q.num < 0 then "-" else ""
      let scaled := q.num.natAbs * ((10 ^ k) / q.den)
      sign ++ toString (scaled / 10 ^ k) ++ "." ++ padZeros (toString (scaled % 10 ^ k)) k
    | none => toString q.num ++ "/" ++ toString q.den

/-! ### AdvancedUrgencyAnalyzer (src/src/routes/agent.js, lines 28–119) -/

/-- `urgencyFactors.temporal` in source order (`Object.entries` preserves
insertion order). -/
def temporalFactors : List (String × ℚ) :=
  [("immediately", 4), ("asap", 4), ("urgent", 3), ("today", 3),
   ("this morning", 3), ("by end of day", 2), ("by eod", 2),
   ("tomorrow", 1), ("this week", 1/2), ("when you can", -1)]

/-- `urgencyFactors.escalation`. -/
def escalationFactors : List (String × ℚ) :=
  [("emergency", 5), ("critical", 4), ("high priority", 3),
   ("important", 2), ("please", 1), ("if possible", -1)]

/-- `urgencyFactors.consequences`. -/
def consequenceFactors : List (String × ℚ) :=
  [("deadline", 3), ("late", 3), ("missing", 3), ("overdue", 4),
   ("expires", 2), ("final notice", 4), ("last chance", 4)]

/-- `urgencyFactors.authority`. -/
def authorityFactors : List (String × ℚ) :=
  [("ceo", 4), ("president", 4), ("director", 3), ("vp", 3),
   ("vice president", 3), ("manager", 2), ("boss", 2), ("lead", 1)]

structure UrgencyAnalysis where
  score : ℚ
  level : String
  isUrgent : Bool
  factors : List String
  reasoning : String
deriving DecidableEq, Repr

/-- The level thresholds used by `analyzeUrgency` (line 105) and by the
blended estimator (line 524). -/
def levelOf (q : ℚ) : String :=
  if q ≥ 8 then "critical" else if q ≥ 6 then "high" else if q ≥ 4 then "medium" else "low"

/-- One `for (const [keyword, weight] of Object.entries(...))` pass: add the
weight and record `"<keyword> (+<weight>)"` (prefixed by `tag`) for each
keyword occurring in `hay`. -/
def keywordPass (hay tag : String) (tbl : List (String × ℚ)) (st : ℚ × List String) :
    ℚ × List String :=
  tbl.foldl
    (fun st kv =>
      if includes hay kv.1 then
        (st.1 + kv.2, st.2 ++ [tag ++ kv.1 ++ " (+" ++ ratStr kv.2 ++ ")"])
      else st)
    st

/-- The running `(score, factors)` state after the four keyword passes and
the three compound-condition bonuses of `analyzeUrgency`. -/
def urgencyTally (subject sender snippet : String) : ℚ × List String :=
  let text := lower (subject ++ " " ++ snippet)
  let fromLower := lower sender
  let st1 := keywordPass text "" temporalFactors (0, [])
  let st2 := keywordPass text "" escalationFactors st1
  let st3 := keywordPass text "" consequenceFactors st2
  let st4 := keywordPass fromLower "authority: " authorityFactors st3
  let st5 :=
    if includes text "meeting" && includes text "today" then
      (st4.1 + 2, st4.2 ++ ["same-day meeting (+2)"])
    else st4
  let st6 :=
    if includes text "client" && (includes text "waiting" || includes text "upset") then
      (st5.1 + 3, st5.2 ++ ["client issue (+3)"])
    else st5
  if includes text "system" && (includes text "down" || includes text "error") then
    (st6.1 + 4, st6.2 ++ ["system issue (+4)"])
  else st6

/-- `AdvancedUrgencyAnalyzer.analyzeUrgency(subject, from, snippet)`. -/
def analyzeUrgency (subject sender snippet : String) : UrgencyAnalysis :=
  let st7 := urgencyTally subject sender snippet
  let finalScore := min 10 (max 0 st7.1)
  { score := finalScore
    level := levelOf finalScore
    isUrgent := decide (7 ≤ finalScore)
    factors := st7.2
    reasoning :=
      if st7.2.isEmpty then
        "Score " ++ ratStr finalScore ++ "/10: No urgency indicators detected"
      else
        "Score " ++ ratStr finalScore ++ "/10: " ++ String.intercalate ", " st7.2 }

/-! ### AutoResponseGenerator.analyzeSenderRelationship (agent.js, lines 172–194) -/

def analyzeSenderRelationship (fromEmail : String) (fromName : String := "") : String :=
  let email := lower fromEmail
  let name := lower fromName
  let combined := email ++ " " ++ name
  if includes combined "ceo" || includes combined "president" || includes combined "director" then
    "boss"
  else if includes combined "manager" || includes combined "supervisor" || includes combined "lead" then
    "boss"
  else if includes email "client" || includes email "customer" then "client"
  else if includes email "vendor" || includes email "supplier" || includes email "sales" then
    "vendor"
  else if includes email "gmail.com" || includes email "yahoo.com" || includes email "hotmail.com" then
    "personal"
  else "colleague"

/-! ### makeFormal / makeCasual (agent.js, lines 320–332)

JS `String.prototype.replace` with a string pattern replaces only the first
occurrence (and is the identity when the pattern does not occur). -/

/-- First-occurrence replacement on code-point lists (JS
`s.replace(pat, rep)` with string arguments). -/
def replaceFirstL (pat rep : List Char) : List Char → List Char
  | [] => if pat.isEmpty then rep else []
  | c :: t =>
    if pat.isPrefixOf (c :: t) then rep ++ (c :: t).drop pat.length
    else c :: replaceFirstL pat rep t

def replaceFirst (pat rep s : String) : String :=
  String.mk (replaceFirstL pat.toList rep.toList s.toList)

def makeFormal (response : String) : String :=
  replaceFirst "can\x27t" "cannot"
    (replaceFirst "I\x27ll" "I will"
      (replaceFirst "Thanks" "Thank you" response))

def makeCasual (response : String) : String :=
  replaceFirst "cannot" "can\x27t"
    (replaceFirst "I will" "I\x27ll"
      (replaceFirst "Thank you" "Thanks" response))

/-! ### generateSubjectLine (agent.js, lines 721–740) -/

def generateSubjectLine (originalSubject responseType : String) : String :=
  if originalSubject = "" then "Re: Your Email"
  else if jsStartsWith (lower originalSubject) "re:" then originalSubject
  else if responseType = "question" then "Re: " ++ originalSubject ++ " - Question"
  else if responseType = "accept" then "Re: " ++ originalSubject ++ " - Confirmed"
  else if responseType = "decline" then "Re: " ++ originalSubject ++ " - Unable to Attend"
  else if responseType = "schedule" then "Re: " ++ originalSubject ++ " - Reschedule Request"
  else "Re: " ++ originalSubject

/-! ### A model of `JSON.parse`

JS numbers are modelled as exact rationals; on the decimal literals JSON
admits this is exact up to the usual IEEE-double quantisation, which no claim
exercises.  Surrogate `\u` escapes are mapped through `Char.ofNat` (invalid
scalar values collapse to `(Char.ofNat 0)`); no claim exercises them. -/

inductive JVal where
  | str (s : String)
  | num (q : ℚ)
  | bool (b : Bool)
  | null
  | arr (elems : List JVal)
  | obj (fields : List (String × JVal))

def quoteChar : Char := Char.ofNat 34
def openBraceChar : Char := Char.ofNat 123
def closeBraceChar : Char := Char.ofNat 125
def openBrackChar : Char := Char.ofNat 91
def closeBrackChar : Char := Char.ofNat 93
def backslashChar : Char := Char.ofNat 92

def jsonWs (c : Char) : Bool :=
  c = ' ' || c = Char.ofNat 9 || c = Char.ofNat 10 || c = Char.ofNat 13

def skipWs : List Char → List Char
  | [] => []
  | c :: t => if jsonWs c then skipWs t else c :: t

def hexVal (c : Char) : Option Nat :=
  if c.isDigit then some (c.toNat - 48)
  else if 97 ≤ c.toNat ∧ c.toNat ≤ 102 then some (c.toNat - 87)
  else if 65 ≤ c.toNat ∧ c.toNat ≤ 70 then some (c.toNat - 55)
  else none

/-- Body of a JSON string after the opening quote: returns the decoded
code points and the remainder after the closing quote. -/
def parseJStrAux : Nat → List Char → Option (List Char × List Char)
  | 0, _ => none
  | _ + 1, [] => none
  | f + 1, c :: t =>
    if c = quoteChar then some ([], t)
    else if c = backslashChar then
      match t with
      | [] => none
      | e :: t2 =>
        if e = quoteChar ∨ e = backslashChar ∨ e = '/' then
          (parseJStrAux f t2).map (fun p => (e :: p.1, p.2))
        else if e = 'b' then (parseJStrAux f t2).map (fun p => (Char.ofNat 8 :: p.1, p.2))
        else if e = 'f' then (parseJStrAux f t2).map (fun p => (Char.ofNat 12 :: p.1, p.2))
        else if e = 'n' then (parseJStrAux f t2).map (fun p => (Char.ofNat 10 :: p.1, p.2))
        else if e = 'r' then (parseJStrAux f t2).map (fun p => (Char.ofNat 13 :: p.1, p.2))
        else if e = 't' then (parseJStrAux f t2).map (fun p => (Char.ofNat 9 :: p.1, p.2))
        else if e = 'u' then
          match t2 with
          | h1 :: h2 :: h3 :: h4 :: t3 =>
            match hexVal h1, hexVal h2, hexVal h3, hexVal h4 with
            | some a, some b, some c2, some d =>
              (parseJStrAux f t3).map
                (fun p => (Char.ofNat (((a * 16 + b) * 16 + c2) * 16 + d) :: p.1, p.2))
            | _, _, _, _ => none
          | _ => none
        else none
    else if c.toNat < 32 then none
    else (parseJStrAux f t).map (fun p => (c :: p.1, p.2))

def spanDigits (cs : List Char) : List Char × List Char := cs.span (·.isDigit)

def digitsVal (ds : List Char) : Nat := ds.foldl (fun a c => a * 10 + (c.toNat - 48)) 0

/-- Mantissa digits with `scale` fractional digits, then an optional
exponent part. -/
def parseExpQ (neg : Bool) (mant : List Char) (scale : Nat) (cs : List Char) :
    Option (ℚ × List Char) :=
  let m : Int := if neg then -(digitsVal mant : Int) else (digitsVal mant : Int)
  match cs with
  | c :: t =>
    if c = 'e' ∨ c = 'E' then
      let p :=
        match t with
        | c2 :: t3 => if c2 = '-' then (true, t3) else if c2 = '+' then (false, t3) else (false, t)
        | [] => (false, ([] : List Char))
      match spanDigits p.2 with
      | ([], _) => none
      | (eds, r3) =>
        let k := digitsVal eds
        if p.1 then some (mkRat m (10 ^ (scale + k)), r3)
        else some (mkRat (m * ((10 : Int) ^ k)) (10 ^ scale), r3)
    else some (mkRat m (10 ^ scale), cs)
  | [] => some (mkRat m (10 ^ scale), [])

/-- A JSON number literal (strict grammar: no leading zeros, no bare sign,
fractional and exponent digit groups must be non-empty). -/
def parseNum (cs : List Char) : Option (JVal × List Char) :=
  let p :=
    match cs with
    | c :: t => if c = '-' then (true, t) else (false, cs)
    | [] => (false, ([] : List Char))
  match spanDigits p.2 with
  | ([], _) => none
  | (ds, r1) =>
    if 1 < ds.length ∧ ds.headD '0' = '0' then none
    else
      match r1 with
      | c :: t =>
        if c = '.' then
          match spanDigits t with
          | ([], _) => none
          | (fds, r2) =>
            (parseExpQ p.1 (ds ++ fds) fds.length r2).map (fun q => (JVal.num q.1, q.2))
        else (parseExpQ p.1 ds 0 r1).map (fun q => (JVal.num q.1, q.2))
      | [] => (parseExpQ p.1 ds 0 []).map (fun q => (JVal.num q.1, q.2))

def litPrefix (lit : String) (cs : List Char) : Bool := lit.toList.isPrefixOf cs

mutual

def parseVal : Nat → List Char → Option (JVal × List Char)
  | 0, _ => none
  | f + 1, cs =>
    match skipWs cs with
    | [] => none
    | c :: t =>
      if c = quoteChar then
        (parseJStrAux (t.length + 1) t).map (fun p => (JVal.str (String.mk p.1), p.2))
      else if c = openBraceChar then parseObjRest f (skipWs t) []
      else if c = openBrackChar then parseArrRest f (skipWs t) []
      else if litPrefix "true" (c :: t) then some (.bool true, (c :: t).drop 4)
      else if litPrefix "false" (c :: t) then some (.bool false, (c :: t).drop 5)
      else if litPrefix "null" (c :: t) then some (.null, (c :: t).drop 4)
      else parseNum (c :: t)

def parseObjRest : Nat → List Char → List (String × JVal) → Option (JVal × List Char)
  | 0, _, _ => none
  | _ + 1, [], _ => none
  | f + 1, c :: t, acc =>
    if c = closeBraceChar ∧ acc.isEmpty then some (.obj [], t)
    else if c = quoteChar then
      match parseJStrAux (t.length + 1) t with
      | none => none
      | some (k, r) =>
        match skipWs r with
        | c2 :: r2 =>
          if c2 = ':' then
            match parseVal f r2 with
            | none => none
            | some (v, r3) =>
              match skipWs r3 with
              | c3 :: r4 =>
                if c3 = ',' then parseObjRest f (skipWs r4) (acc ++ [(String.mk k, v)])
                else if c3 = closeBraceChar then some (.obj (acc ++ [(String.mk k, v)]), r4)
                else none
              | [] => none
          else none
        | [] => none
    else none

def parseArrRest : Nat → List Char → List JVal → Option (JVal × List Char)
  | 0, _, _ => none
  | _ + 1, [], _ => none
  | f + 1, c :: t, acc =>
    if c = closeBrackChar ∧ acc.isEmpty then some (.arr [], t)
    else
      match parseVal f (c :: t) with
      | none => none
      | some (v, r) =>
        match skipWs r with
        | c2 :: r2 =>
          if c2 = ',' then parseArrRest f (skipWs r2) (acc ++ [v])
          else if c2 = closeBrackChar then some (.arr (acc ++ [v]), r2)
          else none
        | [] => none

end

/-- `JSON.parse`: parse one value and require only whitespace afterwards.
Each two units of fuel consume at least one input character, so the fuel
below never runs out on inputs the grammar accepts. -/
def jsonParse (s : String) : Option JVal :=
  let cs := s.toList
  match parseVal (2 * cs.length + 4) cs with
  | some (v, rest) => if (skipWs rest).isEmpty then some v else none
  | none => none

/-- Property read `v[k]` on a parsed value: only objects have own
properties, and a key written twice in the literal keeps the last value. -/
def jGet (v : JVal) (k : String) : Option JVal :=
  match v with
  | .obj fs => ((fs.filter (fun p => p.1 == k)).getLast?).map (fun p => p.2)
  | _ => none

/-- JS truthiness of a parsed JSON value. -/
def truthy : JVal → Bool
  | .null => false
  | .bool b => b
  | .num q => decide (q ≠ 0)
  | .str s => !s.isEmpty
  | .arr _ => true
  | .obj _ => true

mutual

/-- JS `String(v)` for a parsed JSON value. -/
def jvalDisplay : JVal → String
  | .str s => s
  | .num q => ratStr q
  | .bool b => if b then "true" else "false"
  | .null => "null"
  | .arr xs => jvalDisplayList xs
  | .obj _ => "[object Object]"

/-- JS `Array.prototype.join(",")`: null elements render as empty. -/
def jvalDisplayList : List JVal → String
  | [] => ""
  | [JVal.null] => ""
  | [x] => jvalDisplay x
  | JVal.null :: y :: xs => "," ++ jvalDisplayList (y :: xs)
  | x :: y :: xs => jvalDisplay x ++ "," ++ jvalDisplayList (y :: xs)

end

/-- JS template-literal interpolation of a possibly-absent property. -/
def displayOrUndefined : Option JVal → String
  | none => "undefined"
  | some v => jvalDisplay v

/-! ### POST /categorize (agent.js, lines 351–465)

The external call is abstracted by passing the service's reply text as an
explicit input; the handler's behaviour after the reply arrives is embedded
exactly.  Reply parsing (lines 420–431): strict `JSON.parse`, then on failure
the greedy regex `/\x7b.*\x7d/s` — the span from the first opening brace to
the last closing brace of the whole reply — and `JSON.parse` of that match;
if neither succeeds the handler throws and the request fails with a 500
error and no category. -/

/-- The span matched by the greedy regex `/\x7b.*\x7d/s`: from the first
opening brace to the last closing brace (when the former precedes the
latter). -/
def braceSpan (s : String) : Option String :=
  let cs := s.toList
  match cs.findIdx? (fun c => c == openBraceChar), cs.reverse.findIdx? (fun c => c == closeBraceChar) with
  | some i, some rj =>
    let j := cs.length - 1 - rj
    if i < j then some (String.mk ((cs.drop i).take (j - i + 1))) else none
  | _, _ => none

/-- Scan for the first *balanced* braces span, as the specification words
describe the fallback ("scan the reply for the first balanced braces span").
This follows the spec, not the source, and exists only to be compared with
`braceSpan`. -/
def balancedFrom : List Char → Nat → List Char → Option (List Char)
  | [], _, _ => none
  | c :: t, d, acc =>
    if c = openBraceChar then balancedFrom t (d + 1) (acc ++ [c])
    else if c = closeBraceChar then
      if d = 1 then some (acc ++ [c]) else balancedFrom t (d - 1) (acc ++ [c])
    else balancedFrom t d (acc ++ [c])

def specFirstBalancedSpan (s : String) : Option String :=
  let cs := s.toList
  match cs.findIdx? (fun c => c == openBraceChar) with
  | some i => (balancedFrom (cs.drop i) 0 []).map String.mk
  | none => none

/-- Lines 420–431: strict parse, then parse of the greedy brace span. -/
def parseReply (reply : String) : Option JVal :=
  match jsonParse reply with
  | some v => some v
  | none =>
    match braceSpan reply with
    | some sub => jsonParse sub
    | none => none

structure CategorizeBody where
  category : Option JVal
  confidence : Option JVal
  reasoning : Option JVal
  urgencyScore : ℚ
  urgencyLevel : String
  urgencyIsUrgent : Bool
  urgencyFactors : List String
  provider : String

inductive CatResult where
  | badRequest (error : String)
  | failure (error : String)
  | ok (body : CategorizeBody)

def CatResult.bodyOf : CatResult → Option CategorizeBody
  | .ok b => some b
  | _ => none

def isNullJ : JVal → Bool
  | .null => true
  | _ => false

/-- The JS test `result.category !== 'urgent'`, negated: true exactly when
the category property holds the string "urgent". -/
def hasUrgentCategory (result : JVal) : Bool :=
  match jGet result "category" with
  | some (JVal.str s) => s == "urgent"
  | _ => false

/-- Whether a sloppy-mode property assignment `result.category = ...` takes
effect on the parsed value: it does on objects and arrays, and is a silent
no-op on number/string/boolean primitives (none of the sources enable
strict mode, so no TypeError is thrown either). -/
def isAssignable : JVal → Bool
  | .obj _ => true
  | .arr _ => true
  | _ => false

/-- The success body of /categorize for a parsed non-null `result` (lines
433–454): the urgency override assigns category and reasoning when the
rule-based score is ≥ 7 and the parsed category is not the string "urgent".
The assignments only land when `result` is an object or array; on a bare
primitive they are sloppy-mode no-ops, so the response then reads the
unchanged (absent) properties.  The override note reads the reasoning
property before the assignment, as the source's template literal does.
An assigned "category" on an array is also read back as "urgent", and an
array has no own "confidence"/"reasoning" properties, so reading the three
response fields case-by-case here coincides with mutating `result` and
re-reading it. -/
def categorizeOk (ua : UrgencyAnalysis) (result : JVal) : CategorizeBody :=
  if decide (7 ≤ ua.score) && !hasUrgentCategory result && isAssignable result then
    { category := some (.str "urgent")
      confidence := jGet result "confidence"
      reasoning := some (.str ("Urgency override: "
        ++ displayOrUndefined (jGet result "reasoning")
        ++ " (Urgency score: " ++ ratStr ua.score ++ "/10)"))
      urgencyScore := ua.score
      urgencyLevel := ua.level
      urgencyIsUrgent := ua.isUrgent
      urgencyFactors := ua.factors
      provider := "groq" }
  else
    { category := jGet result "category"
      confidence := jGet result "confidence"
      reasoning := jGet result "reasoning"
      urgencyScore := ua.score
      urgencyLevel := ua.level
      urgencyIsUrgent := ua.isUrgent
      urgencyFactors := ua.factors
      provider := "groq" }

/-- The /categorize handler given the reply text of the external service.
A reply parsing to the JSON value `null` reaches the property access
`result.category`, which throws on null and lands in the handler's catch
block, hence the dedicated failure case. -/
def categorize (subject sender snippet reply : String) : CatResult :=
  if subject = "" ∧ snippet = "" then .badRequest "Email subject or snippet required"
  else
    match parseReply reply with
    | none => .failure "Failed to categorize email with AI"
    | some result =>
      if isNullJ result then .failure "Failed to categorize email with AI"
      else .ok (categorizeOk (analyzeUrgency subject sender snippet) result)

/-! ### POST /urgency-enhanced (agent.js, lines 468–553)

`aiReply = none` models an unavailable or failed external call; `some text`
models a reply, which the handler feeds to `JSON.parse` inside its inner
try/catch (a parse failure leaves `aiAnalysis = null`).  The blend
multiplies by the literals 0.6 and 0.4; here these are the exact rationals
3/5 and 2/5.  For integral AI scores the exact blend provably stays at
distance ≥ 1/10 from every half-integer, so rounding agrees with the
IEEE-double evaluation the source performs. -/

/-- JS numeric coercion of a parsed JSON value as used by `*`; `none`
models NaN.  (Arrays coerce through their string form; plain objects give
NaN.) -/
def jsStrToNum (s : String) : Option ℚ :=
  let cs := (((s.toList.dropWhile jsonWs).reverse.dropWhile jsonWs).reverse)
  if cs.isEmpty then some 0
  else
    let p :=
      match cs with
      | c :: t => if c = '-' then (true, true, t) else if c = '+' then (false, true, t) else (false, false, cs)
      | [] => (false, false, ([] : List Char))
    let ds := spanDigits p.2.2
    match ds with
    | (ids, r1) =>
      match r1 with
      | c :: t =>
        if c = '.' then
          match spanDigits t with
          | (fds, r2) =>
            if ids.isEmpty ∧ fds.isEmpty then none
            else
              match parseExpQ p.1 (ids ++ fds) fds.length r2 with
              | some (q, []) => some q
              | _ => none
        else
          if ids.isEmpty then none
          else
            match parseExpQ p.1 ids 0 r1 with
            | some (q, []) => some q
            | _ => none
      | [] => if ids.isEmpty then none else some (mkRat (if p.1 then -(digitsVal ids : Int) else (digitsVal ids : Int)) 1)

def jsCoerceNum : JVal → Option ℚ
  | .num q => some q
  | .null => some 0
  | .bool b => some (if b then 1 else 0)
  | .str s => jsStrToNum s
  | .arr xs => jsStrToNum (jvalDisplayList xs)
  | .obj _ => none

/-- JS `Math.round`: half-values round toward positive infinity. -/
def jsRound (q : ℚ) : Int := ⌊q + 1/2⌋

structure UrgencyBody where
  urgencyScore : Option ℚ
  level : String
  isUrgent : Bool
  ruleBasedScore : ℚ
  aiScore : Option JVal
  factors : List String
  reasoning : JVal
  provider : String

inductive UrgResult where
  | badRequest (error : String)
  | ok (body : UrgencyBody)

def UrgResult.bodyOf : UrgResult → Option UrgencyBody
  | .ok b => some b
  | .badRequest _ => none

def urgencyEnhanced (subject sender snippet : String) (aiReply : Option String) : UrgResult :=
  if subject = "" ∧ snippet = "" then .badRequest "Email subject or snippet required"
  else
    let rule := analyzeUrgency subject sender snippet
    let aiAnalysis : Option JVal := aiReply.bind jsonParse
    let aiScoreField : Option JVal :=
      match aiAnalysis with
      | some v =>
        match jGet v "score" with
        | some sv => if truthy sv then some sv else none
        | none => none
      | none => none
    let reasoningField : JVal :=
      match aiAnalysis with
      | some v =>
        match jGet v "reasoning" with
        | some rv => if truthy rv then rv else .str rule.reasoning
        | none => .str rule.reasoning
      | none => .str rule.reasoning
    match aiAnalysis with
    | some v =>
      if truthy v then
        let blended : Option ℚ :=
          match jGet v "score" with
          | some sv =>
            match jsCoerceNum sv with
            | some q => some ((jsRound (q * 0.6 + rule.score * 0.4) : ℤ) : ℚ)
            | none => none
          | none => none
        .ok { urgencyScore := blended
              level := match blended with | some q => levelOf q | none => "low"
              isUrgent := match blended with | some q => decide (7 ≤ q) | none => false
              ruleBasedScore := rule.score
              aiScore := aiScoreField
              factors := rule.factors
              reasoning := reasoningField
              provider := "hybrid (AI + rules)" }
      else
        .ok { urgencyScore := some rule.score
              level := rule.level
              isUrgent := decide (7 ≤ rule.score)
              ruleBasedScore := rule.score
              aiScore := aiScoreField
              factors := rule.factors
              reasoning := reasoningField
              provider := "rule-based" }
    | none =>
      .ok { urgencyScore := some rule.score
            level := rule.level
            isUrgent := decide (7 ≤ rule.score)
            ruleBasedScore := rule.score
            aiScore := aiScoreField
            factors := rule.factors
            reasoning := reasoningField
            provider := "rule-based" }

/-! ### POST /process-batch (ai_agent_simple.js, lines 190–265)

An email is paired with the outcome of its two internal fetches: `some d`
when both inner requests return data, `none` when processing that item
throws (network or JSON failure), which the per-item catch turns into the
`{error: "Processing failed"}` marker.  The payload type `α` stands for the
spread `...email` fields.  `analytics.total` is assigned `emails.length`
before the loop; `categories` starts empty and `urgencyLevels` starts with
the four fixed keys.  Incrementing a missing histogram key would produce
JS `NaN`, modelled as `none`. -/

structure ItemData where
  category : String
  confidence : ℚ
  urgencyScore : ℚ
  level : String
  isUrgent : Bool
deriving DecidableEq

inductive ItemAnalysis where
  | ok (d : ItemData)
  | failed
deriving DecidableEq

def alistGet {β : Type} (m : List (String × β)) (k : String) : Option β :=
  (m.find? (fun p => p.1 == k)).map (fun p => p.2)

def bumpCategory (m : List (String × Nat)) (k : String) : List (String × Nat) :=
  match m with
  | [] => [(k, 1)]
  | p :: rest => if p.1 = k then (p.1, p.2 + 1) :: rest else p :: bumpCategory rest k

def bumpLevel (m : List (String × Option Nat)) (k : String) : List (String × Option Nat) :=
  match m with
  | [] => [(k, none)]
  | p :: rest => if p.1 = k then (p.1, p.2.map (· + 1)) :: rest else p :: bumpLevel rest k

def initLevels : List (String × Option Nat) :=
  [("low", some 0), ("medium", some 0), ("high", some 0), ("critical", some 0)]

structure BatchAnalytics where
  total : Nat
  categories : List (String × Nat)
  urgencyLevels : List (String × Option Nat)
deriving DecidableEq

structure BatchResponse (α : Type) where
  success : Bool
  processed : List (α × ItemAnalysis)
  analytics : BatchAnalytics
  message : String

def processBatchLoop {α : Type} :
    List (α × Option ItemData) → List (α × ItemAnalysis) → List (String × Nat) →
      List (String × Option Nat) →
      List (α × ItemAnalysis) × List (String × Nat) × List (String × Option Nat)
  | [], ps, cs, us => (ps, cs, us)
  | (e, some d) :: rest, ps, cs, us =>
    processBatchLoop rest (ps ++ [(e, .ok d)]) (bumpCategory cs d.category) (bumpLevel us d.level)
  | (e, none) :: rest, ps, cs, us =>
    processBatchLoop rest (ps ++ [(e, .failed)]) cs us

def processBatch {α : Type} (emails : List (α × Option ItemData)) : BatchResponse α :=
  let r := processBatchLoop (emails.take 10) [] [] initLevels
  { success := true
    processed := r.1
    analytics := { total := emails.length, categories := r.2.1, urgencyLevels := r.2.2 }
    message := "Processed " ++ toString r.1.length ++ " emails successfully" }

/-- The shape each processed entry takes: the claim-level description of one
loop iteration. -/
def processEntry {α : Type} (p : α × Option ItemData) : α × ItemAnalysis :=
  (p.1, match p.2 with | some d => .ok d | none => .failed)

/-! ### Concrete inputs used by counterexamples and witnesses -/

/-- A well-formed classification reply with a non-urgent category. -/
def workReply : String :=
  "\x7b\x22category\x22:\x22work\x22,\x22confidence\x22:0.8,\x22reasoning\x22:\x22routine\x22\x7d"

/-- The spec's malformed-reply example: the JSON payload wrapped in prose. -/
def exampleReply : String :=
  "Sure! \x7b\x22category\x22:\x22urgent\x22,\x22confidence\x22:0.9,\x22reasoning\x22:\x22test\x22\x7d"

/-- A reply with two separate JSON objects amid prose: a balanced-span scan
finds the first object, while the greedy first-to-last brace span is not
valid JSON. -/
def trickyReply : String :=
  "ok \x7b\x22category\x22:\x22urgent\x22,\x22confidence\x22:1,\x22reasoning\x22:\x22r\x22\x7d and \x7b\x22note\x22:1\x7d"

/-- An external urgency reply carrying the integer score 8. -/
def aiReply8 : String := "\x7b\x22score\x22:8,\x22reasoning\x22:\x22deadline\x22\x7d"

/-- An external urgency reply carrying the integer score 0. -/
def aiReply0 : String := "\x7b\x22score\x22:0,\x22reasoning\x22:\x22calm\x22\x7d"

/-- Per-item data for the first email of the three-email counterexample
batch. -/
def itemWork : ItemData :=
  { category := "work", confidence := 9/10, urgencyScore := 2, level := "low", isUrgent := false }

/-- Per-item data for the third email of the three-email counterexample
batch. -/
def itemUrgent : ItemData :=
  { category := "urgent", confidence := 4/5, urgencyScore := 8, level := "critical", isUrgent := true }

/-- A three-email batch whose second item fails during processing. -/
def cexBatch : List (String × Option ItemData) :=
  [("e1", some itemWork), ("e2", none), ("e3", some itemUrgent)]

/-! ## Theorems -/

/-! ### Helper lemmas -/

theorem analyzeUrgency_score_def (subject sender snippet : String) :
    (analyzeUrgency subject sender snippet).score
      = min 10 (max 0 (urgencyTally subject sender snippet).1) := rfl

theorem analyzeUrgency_level_def (subject sender snippet : String) :
    (analyzeUrgency subject sender snippet).level
      = levelOf (analyzeUrgency subject sender snippet).score := rfl

theorem analyzeUrgency_isUrgent_def (subject sender snippet : String) :
    (analyzeUrgency subject sender snippet).isUrgent
      = decide (7 ≤ (analyzeUrgency subject sender snippet).score) := rfl

theorem levelOf_critical_iff (q : ℚ) : levelOf q = "critical" ↔ 8 ≤ q := by
  unfold levelOf
  split_ifs with h1 h2 h3 <;> simp_all <;> linarith

theorem levelOf_high_iff (q : ℚ) : levelOf q = "high" ↔ 6 ≤ q ∧ q < 8 := by
  unfold levelOf
  split_ifs with h1 h2 h3 <;> simp_all <;> first | linarith | (intro; linarith)

theorem levelOf_medium_iff (q : ℚ) : levelOf q = "medium" ↔ 4 ≤ q ∧ q < 6 := by
  unfold levelOf
  split_ifs with h1 h2 h3 <;> simp_all <;> first | linarith | (intro; linarith)

theorem levelOf_low_iff (q : ℚ) : levelOf q = "low" ↔ q < 4 := by
  unfold levelOf
  split_ifs with h1 h2 h3 <;> simp_all <;> linarith

/-! ### C2 -/

/-- C2 (amended): the Keyword Urgency Scorer is total, its score is a
rational (not always an integer) clamped to `[0, 10]`, its level follows the
fixed thresholds (≥8 critical, ≥6 high, ≥4 medium, else low), and `isUrgent`
holds exactly when the score is ≥ 7. -/
theorem analyzeUrgency_bounds_levels (subject sender snippet : String) :
    0 ≤ (analyzeUrgency subject sender snippet).score
    ∧ (analyzeUrgency subject sender snippet).score ≤ 10
    ∧ ((analyzeUrgency subject sender snippet).level = "critical"
        ↔ 8 ≤ (analyzeUrgency subject sender snippet).score)
    ∧ ((analyzeUrgency subject sender snippet).level = "high"
        ↔ 6 ≤ (analyzeUrgency subject sender snippet).score
          ∧ (analyzeUrgency subject sender snippet).score < 8)
    ∧ ((analyzeUrgency subject sender snippet).level = "medium"
        ↔ 4 ≤ (analyzeUrgency subject sender snippet).score
          ∧ (analyzeUrgency subject sender snippet).score < 6)
    ∧ ((analyzeUrgency subject sender snippet).level = "low"
        ↔ (analyzeUrgency subject sender snippet).score < 4)
    ∧ ((analyzeUrgency subject sender snippet).isUrgent = true
        ↔ 7 ≤ (analyzeUrgency subject sender snippet).score) := by
  refine ⟨?_, ?_, ?_, ?_, ?_, ?_, ?_⟩
  · rw [analyzeUrgency_score_def]
    exact le_min (by norm_num) (le_max_left 0 _)
  · rw [analyzeUrgency_score_def]
    exact min_le_left _ _
  · rw [analyzeUrgency_level_def]
    exact levelOf_critical_iff _
  · rw [analyzeUrgency_level_def]
    exact levelOf_high_iff _
  · rw [analyzeUrgency_level_def]
    exact levelOf_medium_iff _
  · rw [analyzeUrgency_level_def]
    exact levelOf_low_iff _
  · rw [analyzeUrgency_isUrgent_def]
    simp

/-- C2 counterexample: on the input whose subject is "this week" the score
is 1/2, so the claim that the returned score is always an integer fails. -/
theorem analyzeUrgency_score_not_integer :
    ¬ ∃ n : ℤ, (analyzeUrgency "this week" "" "").score = (n : ℚ) := by
  intro h
  obtain ⟨n, hn⟩ := h
  have hs : (analyzeUrgency "this week" "" "").score = 1/2 := by decide
  rw [hs] at hn
  have hden : ((1:ℚ)/2).den = 2 := by decide
  rw [hn, Rat.den_intCast] at hden
  omega

/-! ### C8 -/

/-- C8: sender-relationship classification is total over the five tags, the
boss keyword group is tested first (an address whose combined lowercased
text contains "director" always classifies as boss), and in particular
`director.client@company.com` — which also matches the client group —
classifies as boss. -/
theorem analyzeSenderRelationship_total_precedence :
    ∀ fromEmail fromName : String,
      (analyzeSenderRelationship fromEmail fromName = "boss"
        ∨ analyzeSenderRelationship fromEmail fromName = "client"
        ∨ analyzeSenderRelationship fromEmail fromName = "vendor"
        ∨ analyzeSenderRelationship fromEmail fromName = "personal"
        ∨ analyzeSenderRelationship fromEmail fromName = "colleague")
      ∧ (includes (lower fromEmail ++ " " ++ lower fromName) "director" = true →
          analyzeSenderRelationship fromEmail fromName = "boss")
      ∧ analyzeSenderRelationship "director.client@company.com" "" = "boss"
      ∧ includes (lower "director.client@company.com") "client" = true := by
  intro e n
  refine ⟨?_, ?_, rfl, rfl⟩
  · simp only [analyzeSenderRelationship]
    split_ifs <;> simp
  · intro h
    simp [analyzeSenderRelationship, h]

/-- C8 witness: the precedence part of the theorem applied at the concrete
address containing both "director" and "client". -/
theorem analyzeSenderRelationship_precedence_witness :
    analyzeSenderRelationship "director.client@company.com" "" = "boss" :=
  (analyzeSenderRelationship_total_precedence "director.client@company.com" "").2.1 (by decide)

/-! ### C9 -/

/-- C9 counterexample: the register transforms are not mutually inverse;
`makeCasual (makeFormal s)` contracts an "I will" that was already present,
and `makeFormal (makeCasual s)` formalises a pre-existing "Thanks". -/
theorem makeFormal_makeCasual_not_inverse :
    makeCasual (makeFormal "I will send it.") = "I\x27ll send it."
    ∧ ("I\x27ll send it." : String) ≠ "I will send it."
    ∧ makeFormal (makeCasual "Thanks!") = "Thank you!"
    ∧ ("Thank you!" : String) ≠ "Thanks!" :=
  ⟨rfl, by decide, rfl, by decide⟩

theorem isSubstr_false_replaceFirstL (pat rep : List Char) (l : List Char)
    (h : isSubstr pat l = false) : replaceFirstL pat rep l = l := by
  induction l with
  | nil =>
    simp only [isSubstr] at h
    simp [replaceFirstL, h]
  | cons c t ih =>
    simp only [isSubstr, Bool.or_eq_false_iff] at h
    simp [replaceFirstL, h.1, ih h.2]

theorem includes_false_replaceFirst (pat rep s : String) (h : includes s pat = false) :
    replaceFirst pat rep s = s := by
  unfold includes at h
  unfold replaceFirst
  rw [isSubstr_false_replaceFirstL _ _ _ h]
  rfl

/-- C9 (amended): the two transforms perform mirrored pair-by-pair
first-occurrence substitutions, but they are mutually inverse only away from
the substitution targets: for every string containing none of the six target
phrases, both round trips are the identity (each transform is then the
identity); in general the round trips differ from the input. -/
theorem makeFormal_makeCasual_inverse_on_clean (s : String)
    (h1 : includes s "Thanks" = false) (h2 : includes s "I\x27ll" = false)
    (h3 : includes s "can\x27t" = false) (h4 : includes s "Thank you" = false)
    (h5 : includes s "I will" = false) (h6 : includes s "cannot" = false) :
    makeCasual (makeFormal s) = s ∧ makeFormal (makeCasual s) = s := by
  have hf : makeFormal s = s := by
    unfold makeFormal
    rw [includes_false_replaceFirst _ _ _ h1, includes_false_replaceFirst _ _ _ h2,
      includes_false_replaceFirst _ _ _ h3]
  have hc : makeCasual s = s := by
    unfold makeCasual
    rw [includes_false_replaceFirst _ _ _ h4, includes_false_replaceFirst _ _ _ h5,
      includes_false_replaceFirst _ _ _ h6]
  exact ⟨by rw [hf, hc], by rw [hc, hf]⟩

/-- C9 witness: a string free of all six substitution targets round-trips
unchanged in both directions. -/
theorem makeFormal_makeCasual_inverse_witness :
    makeCasual (makeFormal "See you at the sync at noon.") = "See you at the sync at noon."
    ∧ makeFormal (makeCasual "See you at the sync at noon.") = "See you at the sync at noon." :=
  makeFormal_makeCasual_inverse_on_clean "See you at the sync at noon."
    (by decide) (by decide) (by decide) (by decide) (by decide) (by decide)

/-! ### C10 -/

theorem rePrefix_append_ne_empty (x : String) : ("Re: " ++ x) ≠ "" := by
  intro h
  have hd := congrArg String.data h
  rw [String.data_append] at hd
  simp at hd

theorem jsStartsWith_lower_re (x : String) : jsStartsWith (lower ("Re: " ++ x)) "re:" = true := by
  show ("re:".toList).isPrefixOf ((("Re: " ++ x).toList.map Char.toLower)) = true
  rw [show ("Re: " ++ x).toList = "Re: ".toList ++ x.toList from String.data_append _ _,
    List.map_append]
  rfl

theorem generateSubjectLine_of_rePrefix (u t : String) (hne : u ≠ "")
    (hre : jsStartsWith (lower u) "re:" = true) : generateSubjectLine u t = u := by
  unfold generateSubjectLine
  rw [if_neg hne, if_pos hre]

/-- C10: every generated subject starts (case-insensitively) with "re:"; a
subject already starting with "re:" in any case is returned unchanged
whatever the response type; and the generator is idempotent. -/
theorem generateSubjectLine_spec :
    ∀ s t : String,
      jsStartsWith (lower (generateSubjectLine s t)) "re:" = true
      ∧ (jsStartsWith (lower s) "re:" = true → generateSubjectLine s t = s)
      ∧ generateSubjectLine (generateSubjectLine s t) t = generateSubjectLine s t := by
  intro s t
  by_cases hs : s = ""
  · subst hs
    have hg : generateSubjectLine "" t = "Re: Your Email" := by
      unfold generateSubjectLine
      rw [if_pos rfl]
    refine ⟨by rw [hg]; decide, fun h => absurd h (by decide), ?_⟩
    rw [hg]
    exact generateSubjectLine_of_rePrefix _ _ (by decide) (by decide)
  · by_cases hre : jsStartsWith (lower s) "re:" = true
    · have hg : generateSubjectLine s t = s := generateSubjectLine_of_rePrefix s t hs hre
      exact ⟨by rw [hg]; exact hre, fun _ => hg, by rw [hg, hg]⟩
    · have hform : ∃ x, generateSubjectLine s t = "Re: " ++ x := by
        unfold generateSubjectLine
        rw [if_neg hs, if_neg hre]
        split_ifs <;> exact ⟨_, rfl⟩
      obtain ⟨x, hx⟩ := hform
      refine ⟨by rw [hx]; exact jsStartsWith_lower_re x, fun h => absurd h hre, ?_⟩
      rw [hx]
      exact generateSubjectLine_of_rePrefix _ _ (rePrefix_append_ne_empty x) (jsStartsWith_lower_re x)

/-- C10 witness: a subject already carrying a "Re:" prefix is returned
unchanged. -/
theorem generateSubjectLine_witness :
    generateSubjectLine "Re: Budget" "question" = "Re: Budget" :=
  (generateSubjectLine_spec "Re: Budget" "question").2.1 (by decide)

/-! ### C1 -/

theorem isNullJ_false_of_ne {v : JVal} (h : v ≠ JVal.null) : isNullJ v = false := by
  cases v <;> first | rfl | exact absurd rfl h

theorem categorize_eq_ok (subject sender snippet reply : String) (result : JVal)
    (hvalid : ¬(subject = "" ∧ snippet = ""))
    (hparse : parseReply reply = some result) (hnn : result ≠ JVal.null) :
    categorize subject sender snippet reply
      = .ok (categorizeOk (analyzeUrgency subject sender snippet) result) := by
  simp [categorize, hvalid, hparse, isNullJ_false_of_ne hnn]

theorem hasUrgentCategory_true_iff (result : JVal) :
    hasUrgentCategory result = true ↔ jGet result "category" = some (JVal.str "urgent") := by
  unfold hasUrgentCategory
  cases hj : jGet result "category" with
  | none => simp
  | some v => cases v <;> simp

/-- C1 counterexample: the reply "5" is successfully parsed by `JSON.parse`
(to the number 5) and the rule-based score is ≥ 7, yet the final response
carries no category at all — the sloppy-mode override assignment to a
primitive is a silent no-op — so the final category is not always "urgent"
when the score is ≥ 7. -/
theorem categorize_override_primitive_counterexample :
    7 ≤ (analyzeUrgency "emergency overdue" "" "").score
    ∧ parseReply "5" = some (JVal.num 5)
    ∧ ((categorize "emergency overdue" "" "" "5").bodyOf).map CategorizeBody.category
        = some none :=
  ⟨by decide, rfl, rfl⟩

/-- C1 (amended): whenever the external classification reply parses to a
usable (non-null) value on which property assignment is effective — a JSON
object or array — and the Keyword Urgency Scorer's score is ≥ 7, the final
returned category is the string "urgent" regardless of the parsed category,
and when the parsed category was not already "urgent" the reasoning is
rewritten to the override note citing the numeric score; when the reply
parses to a bare primitive instead, the assignments are sloppy-mode no-ops
and the response just reads the primitive's (absent) category property. -/
theorem categorize_override_forces_urgent
    (subject sender snippet reply : String) (result : JVal)
    (hvalid : ¬(subject = "" ∧ snippet = ""))
    (hparse : parseReply reply = some result) (hnn : result ≠ JVal.null)
    (hscore : 7 ≤ (analyzeUrgency subject sender snippet).score) :
    (isAssignable result = true →
      ((categorize subject sender snippet reply).bodyOf).map CategorizeBody.category
        = some (some (.str "urgent"))
      ∧ (hasUrgentCategory result = false →
          ((categorize subject sender snippet reply).bodyOf).map CategorizeBody.reasoning
            = some (some (.str ("Urgency override: "
                ++ displayOrUndefined (jGet result "reasoning")
                ++ " (Urgency score: "
                ++ ratStr (analyzeUrgency subject sender snippet).score ++ "/10)")))))
    ∧ (isAssignable result = false →
        ((categorize subject sender snippet reply).bodyOf).map CategorizeBody.category
          = some (jGet result "category")) := by
  rw [categorize_eq_ok subject sender snippet reply result hvalid hparse hnn]
  constructor
  · intro hassign
    constructor
    · by_cases hcat : hasUrgentCategory result = true
      · have hj := (hasUrgentCategory_true_iff result).mp hcat
        simp [categorizeOk, CatResult.bodyOf, hcat, hj]
      · have hcat' : hasUrgentCategory result = false := by
          revert hcat
          cases hasUrgentCategory result <;> simp
        simp [categorizeOk, CatResult.bodyOf, hcat', hassign, decide_eq_true hscore]
    · intro hcat
      simp [categorizeOk, CatResult.bodyOf, hcat, hassign, decide_eq_true hscore]
  · intro hassign
    simp [categorizeOk, CatResult.bodyOf, hassign]

/-- C1 witness: subject "emergency overdue" scores 9; an object reply
categorised "work" is overridden to "urgent" with the override note citing
9/10. -/
theorem categorize_override_witness :
    ((categorize "emergency overdue" "" "" workReply).bodyOf).map CategorizeBody.category
      = some (some (.str "urgent"))
    ∧ ((categorize "emergency overdue" "" "" workReply).bodyOf).map CategorizeBody.reasoning
      = some (some (.str "Urgency override: routine (Urgency score: 9/10)")) := by
  have h := categorize_override_forces_urgent "emergency overdue" "" "" workReply
    (JVal.obj [("category", JVal.str "work"), ("confidence", JVal.num (4/5)),
      ("reasoning", JVal.str "routine")])
    (by decide) (by rfl) (by intro hh; cases hh) (by decide)
  exact ⟨(h.1 rfl).1, (h.1 rfl).2 (by rfl)⟩

/-! ### C7 -/

/-- C7 counterexample: on a reply containing two JSON objects amid prose the
scan the claim describes (first balanced braces span) extracts and parses
the first object — yielding category "urgent" — while the source's greedy
first-to-last brace span is not valid JSON, so the categorize operation
hard-fails instead. -/
theorem parseReply_balanced_scan_counterexample :
    (specFirstBalancedSpan trickyReply).bind jsonParse
      = some (.obj [("category", .str "urgent"), ("confidence", .num 1), ("reasoning", .str "r")])
    ∧ parseReply trickyReply = none
    ∧ categorize "hello" "" "" trickyReply = .failure "Failed to categorize email with AI" :=
  ⟨rfl, rfl, rfl⟩

/-- C7 (amended): reply parsing first attempts a strict JSON parse; on
failure it parses the greedy span from the first opening brace to the *last*
closing brace of the reply (the regex `/\x7b.*\x7d/s`), not the first
balanced span; a reply wrapping a single JSON payload in surrounding prose
therefore still yields category "urgent", and when both attempts fail the
categorize operation is a hard failure with no default category. -/
theorem parseReply_greedy_spec :
    ∀ subject sender snippet reply : String,
      (jsonParse reply ≠ none → parseReply reply = jsonParse reply)
      ∧ (jsonParse reply = none → parseReply reply = (braceSpan reply).bind jsonParse)
      ∧ (parseReply reply = none → ¬(subject = "" ∧ snippet = "") →
          categorize subject sender snippet reply
            = .failure "Failed to categorize email with AI")
      ∧ ((categorize "hello" "" "" exampleReply).bodyOf).map CategorizeBody.category
          = some (some (.str "urgent")) := by
  intro subject sender snippet reply
  refine ⟨?_, ?_, ?_, rfl⟩
  · intro h
    unfold parseReply
    cases hj : jsonParse reply with
    | none => exact absurd hj h
    | some v => rfl
  · intro h
    unfold parseReply
    rw [h]
    cases hb : braceSpan reply with
    | none => rfl
    | some sub => rfl
  · intro hp hv
    unfold categorize
    rw [if_neg hv, hp]

/-- C7 witness: a reply with no JSON anywhere hard-fails, and the spec's
prose-wrapped example still classifies as urgent. -/
theorem parseReply_greedy_witness :
    categorize "hello" "" "" "no json at all" = .failure "Failed to categorize email with AI"
    ∧ ((categorize "hello" "" "" exampleReply).bodyOf).map CategorizeBody.category
        = some (some (.str "urgent")) := by
  have h := parseReply_greedy_spec "hello" "" "" "no json at all"
  exact ⟨h.2.2.1 (by rfl) (by decide), h.2.2.2⟩

/-! ### C4 -/

/-- C4: when the external text-generation call fails (or its output fails
`JSON.parse`), the blended estimator returns exactly the rule-based result —
same score, level and isUrgent — with provider "rule-based", still as a
successful response. -/
theorem urgencyEnhanced_fallback
    (subject sender snippet : String) (aiReply : Option String)
    (hvalid : ¬(subject = "" ∧ snippet = ""))
    (hfail : aiReply.bind jsonParse = none) :
    ((urgencyEnhanced subject sender snippet aiReply).bodyOf).map
        (fun b => (b.urgencyScore, b.level, b.isUrgent, b.provider))
      = some (some (analyzeUrgency subject sender snippet).score,
          (analyzeUrgency subject sender snippet).level,
          (analyzeUrgency subject sender snippet).isUrgent,
          "rule-based") := by
  unfold urgencyEnhanced
  rw [if_neg hvalid]
  simp only [hfail]
  rfl

/-- C4 witness: an unparseable reply falls back to the rule-only result. -/
theorem urgencyEnhanced_fallback_witness :
    ((urgencyEnhanced "hello" "" "" (some "Sorry, not JSON")).bodyOf).map
        (fun b => (b.urgencyScore, b.level, b.isUrgent, b.provider))
      = some (some 0, "low", false, "rule-based") := by
  have h := urgencyEnhanced_fallback "hello" "" "" (some "Sorry, not JSON") (by decide) (by rfl)
  exact h

/-! ### C3 -/

theorem jsRound_eq_round (q : ℚ) : jsRound q = round q := (round_eq q).symm

/-- C3 counterexample: when blending succeeds the provider field is the
string "hybrid (AI + rules)", not "hybrid" as the claim states. -/
theorem urgencyEnhanced_provider_counterexample :
    ((urgencyEnhanced "urgent tomorrow" "" "" (some aiReply8)).bodyOf).map UrgencyBody.provider
      = some "hybrid (AI + rules)"
    ∧ ("hybrid (AI + rules)" : String) ≠ "hybrid" :=
  ⟨rfl, by decide⟩

/-- C3 (amended): whenever the external urgency call succeeds and returns an
integral numeric score, the blended score equals round(aiScore*0.6 +
ruleScore*0.4) (JS `Math.round`, halves up), level and isUrgent are
re-derived from the blended score through the same thresholds as the
rule-based scorer, and the provider is reported as "hybrid (AI + rules)".
(For integral aiScore the exact rational blend stays at distance ≥ 1/10 from
every half-integer, so this provably matches the double-precision arithmetic
of the source; non-integral external scores could round differently in
doubles and are outside this model.) -/
theorem urgencyEnhanced_blend
    (subject sender snippet reply : String) (v : JVal) (a : ℤ)
    (hvalid : ¬(subject = "" ∧ snippet = ""))
    (hparse : jsonParse reply = some v) (htruthy : truthy v = true)
    (hsc : jGet v "score" = some (.num (a : ℚ))) :
    ((urgencyEnhanced subject sender snippet (some reply)).bodyOf).map
        (fun b => (b.urgencyScore, b.level, b.isUrgent, b.provider))
      = some (some ((round ((a : ℚ) * 0.6
            + (analyzeUrgency subject sender snippet).score * 0.4) : ℤ) : ℚ),
          levelOf ((round ((a : ℚ) * 0.6
            + (analyzeUrgency subject sender snippet).score * 0.4) : ℤ) : ℚ),
          decide (7 ≤ ((round ((a : ℚ) * 0.6
            + (analyzeUrgency subject sender snippet).score * 0.4) : ℤ) : ℚ)),
          "hybrid (AI + rules)") := by
  unfold urgencyEnhanced
  rw [if_neg hvalid]
  simp only [Option.some_bind, hparse, htruthy, hsc, jsCoerceNum, jsRound_eq_round]
  rfl

/-- C3 witness: rule score 4 ("urgent tomorrow") with external score 8
blends to round(8*0.6 + 4*0.4) = round 6.4 = 6, level "high", not urgent,
provider "hybrid (AI + rules)". -/
theorem urgencyEnhanced_blend_witness :
    ((urgencyEnhanced "urgent tomorrow" "" "" (some aiReply8)).bodyOf).map
        (fun b => (b.urgencyScore, b.level, b.isUrgent, b.provider))
      = some (some 6, "high", false, "hybrid (AI + rules)") := by
  have h := urgencyEnhanced_blend "urgent tomorrow" "" "" aiReply8
    (JVal.obj [("score", JVal.num 8), ("reasoning", JVal.str "deadline")]) 8
    (by decide) (by rfl) (by rfl) (by rfl)
  exact h

/-! ### C5 and C6: batch processing -/

theorem processBatchLoop_spec {α : Type} (items : List (α × Option ItemData))
    (ps : List (α × ItemAnalysis)) (cs : List (String × Nat))
    (us : List (String × Option Nat)) :
    processBatchLoop items ps cs us
      = (ps ++ items.map processEntry,
         ((items.filterMap Prod.snd).map ItemData.category).foldl bumpCategory cs,
         ((items.filterMap Prod.snd).map ItemData.level).foldl bumpLevel us) := by
  induction items generalizing ps cs us with
  | nil => simp [processBatchLoop]
  | cons p rest ih =>
    obtain ⟨e, d⟩ := p
    cases d with
    | some d => simp [processBatchLoop, ih, processEntry, List.filterMap_cons]
    | none => simp [processBatchLoop, ih, processEntry, List.filterMap_cons]

theorem alistGet_nil {β : Type} (c : String) : alistGet ([] : List (String × β)) c = none := rfl

theorem alistGet_cons {β : Type} (k0 : String) (n : β) (rest : List (String × β)) (c : String) :
    alistGet ((k0, n) :: rest) c = if k0 = c then some n else alistGet rest c := by
  by_cases h : k0 = c
  · unfold alistGet
    rw [List.find?_cons_of_pos _ (by simp [h])]
    simp [h]
  · unfold alistGet
    rw [List.find?_cons_of_neg _ (by simp [h])]
    rw [if_neg h]

theorem alistGet_bumpCategory (m : List (String × Nat)) (k c : String) :
    alistGet (bumpCategory m k) c
      = if c = k then some ((alistGet m c).getD 0 + 1) else alistGet m c := by
  induction m with
  | nil =>
    by_cases hc : c = k
    · subst hc
      simp [bumpCategory, alistGet_cons, alistGet_nil]
    · have hkc : ¬ k = c := fun h => hc h.symm
      simp [bumpCategory, alistGet_cons, alistGet_nil, hc, hkc]
  | cons p rest ih =>
    obtain ⟨k0, n⟩ := p
    by_cases h0 : k0 = k
    · subst h0
      by_cases hc : c = k0
      · subst hc
        simp [bumpCategory, alistGet_cons]
      · have hkc : ¬ k0 = c := fun h => hc h.symm
        simp [bumpCategory, alistGet_cons, hc, hkc]
    · rw [show bumpCategory ((k0, n) :: rest) k = (k0, n) :: bumpCategory rest k by
        simp [bumpCategory, h0]]
      by_cases hc : c = k0
      · subst hc
        have hck : ¬ c = k := fun h => h0 (h ▸ rfl)
        simp [alistGet_cons, hck]
      · have h0c : ¬ k0 = c := fun h => hc h.symm
        simp [alistGet_cons, h0c, ih]

theorem alistGet_foldl_bumpCategory (ks : List String) (m : List (String × Nat)) (c : String) :
    alistGet (ks.foldl bumpCategory m) c
      = match alistGet m c with
        | some n => some (n + ks.count c)
        | none => if ks.count c = 0 then none else some (ks.count c) := by
  induction ks generalizing m with
  | nil => cases hm : alistGet m c <;> simp [hm]
  | cons k ks ih =>
    rw [List.foldl_cons, ih, alistGet_bumpCategory]
    by_cases hc : c = k
    · subst hc
      cases hm : alistGet m c with
      | some n => simp [hm, List.count_cons_self, Nat.add_assoc, Nat.add_comm 1]
      | none => simp [hm, List.count_cons_self, Nat.add_comm 1]
    · have hkc : ¬ k = c := fun h => hc h.symm
      cases hm : alistGet m c <;> simp [hm, List.count_cons, hkc, hc]

theorem alistGet_bumpLevel (m : List (String × Option Nat)) (k c : String) :
    alistGet (bumpLevel m k) c
      = if c = k then
          (match alistGet m c with
           | some o => some (o.map (· + 1))
           | none => some none)
        else alistGet m c := by
  induction m with
  | nil =>
    by_cases hc : c = k
    · subst hc
      simp [bumpLevel, alistGet_cons, alistGet_nil]
    · have hkc : ¬ k = c := fun h => hc h.symm
      simp [bumpLevel, alistGet_cons, alistGet_nil, hc, hkc]
  | cons p rest ih =>
    obtain ⟨k0, n⟩ := p
    by_cases h0 : k0 = k
    · subst h0
      by_cases hc : c = k0
      · subst hc
        simp [bumpLevel, alistGet_cons]
      · have hkc : ¬ k0 = c := fun h => hc h.symm
        simp [bumpLevel, alistGet_cons, hc, hkc]
    · rw [show bumpLevel ((k0, n) :: rest) k = (k0, n) :: bumpLevel rest k by
        simp [bumpLevel, h0]]
      by_cases hc : c = k0
      · subst hc
        have hck : ¬ c = k := fun h => h0 (h ▸ rfl)
        simp [alistGet_cons, hck]
      · have h0c : ¬ k0 = c := fun h => hc h.symm
        simp [alistGet_cons, h0c, ih]

theorem alistGet_foldl_bumpLevel (ks : List String) (m : List (String × Option Nat))
    (k : String) (n : Nat) (h : alistGet m k = some (some n)) :
    alistGet (ks.foldl bumpLevel m) k = some (some (n + ks.count k)) := by
  induction ks generalizing m n with
  | nil => simp [h]
  | cons k0 ks ih =>
    rw [List.foldl_cons]
    by_cases hk : k = k0
    · subst hk
      have h2 : alistGet (bumpLevel m k) k = some (some (n + 1)) := by
        rw [alistGet_bumpLevel, if_pos rfl, h]
        rfl
      rw [ih _ _ h2]
      simp [List.count_cons_self, Nat.add_assoc, Nat.add_comm 1]
    · have h2 : alistGet (bumpLevel m k0) k = some (some n) := by
        rw [alistGet_bumpLevel, if_neg hk]
        exact h
      rw [ih _ _ h2]
      have hk0 : ¬ k0 = k := fun h => hk h.symm
      simp [List.count_cons, hk0]

theorem count_map_countP {γ β : Type} [BEq β] (f : γ → β) (l : List γ) (c : β) :
    (l.map f).count c = l.countP (fun d => f d == c) := by
  induction l with
  | nil => rfl
  | cons x xs ih => simp [List.count_cons, List.countP_cons, ih]

/-- C6: at most the first ten emails of a batch are processed, in input
order; excess items do not appear in the output; and the reported processed
count in the response message equals the number of processed entries (the
minimum of the batch size and ten). -/
theorem processBatch_cap {α : Type} (emails : List (α × Option ItemData)) :
    (processBatch emails).processed = (emails.take 10).map processEntry
    ∧ (processBatch emails).processed.length = min emails.length 10
    ∧ (processBatch emails).message
        = "Processed " ++ toString (min emails.length 10) ++ " emails successfully"
    ∧ (processBatch emails).success = true := by
  have hloop := processBatchLoop_spec (emails.take 10) ([] : List (α × ItemAnalysis)) [] initLevels
  have hp : (processBatch emails).processed = (emails.take 10).map processEntry := by
    simp [processBatch, hloop]
  have hlen : ((emails.take 10).map (processEntry (α := α))).length = min emails.length 10 := by
    simp [List.length_take, Nat.min_comm]
  refine ⟨hp, by rw [hp, hlen], ?_, rfl⟩
  show "Processed " ++ toString (processBatchLoop (emails.take 10) [] [] initLevels).1.length
      ++ " emails successfully" = _
  rw [hloop]
  simp only [List.nil_append]
  rw [hlen]

/-- C5 counterexample: in the three-email batch whose second item fails,
only two items are successfully processed, yet `analytics.total` is 3: the
total tallies every submitted email, not only successfully processed
ones. -/
theorem processBatch_total_counterexample :
    (processBatch cexBatch).analytics.total = 3
    ∧ (processBatch cexBatch).processed.countP
        (fun p => decide (p.2 ≠ ItemAnalysis.failed)) = 2
    ∧ (3 : Nat) ≠ 2 :=
  ⟨rfl, by decide, by decide⟩

/-- C5 (amended): a per-item failure is isolated — the batch still responds
success, the processed list is the input-order image of the first ten items
with the failed item carrying the error marker, and the category counts and
urgency-level histogram tally only successfully processed items; however
`analytics.total` equals the number of submitted emails (it is set before
the loop), so it also counts failed and unprocessed excess items. -/
theorem processBatch_isolation_analytics {α : Type} (emails : List (α × Option ItemData)) :
    (processBatch emails).success = true
    ∧ (processBatch emails).analytics.total = emails.length
    ∧ (processBatch emails).processed = (emails.take 10).map processEntry
    ∧ (∀ c : String,
        alistGet (processBatch emails).analytics.categories c
          = (if ((emails.take 10).filterMap Prod.snd).countP (fun d => d.category == c) = 0
             then none
             else some (((emails.take 10).filterMap Prod.snd).countP
                (fun d => d.category == c))))
    ∧ (∀ k : String, (k = "low" ∨ k = "medium" ∨ k = "high" ∨ k = "critical") →
        alistGet (processBatch emails).analytics.urgencyLevels k
          = some (some (((emails.take 10).filterMap Prod.snd).countP
              (fun d => d.level == k)))) := by
  have hloop := processBatchLoop_spec (emails.take 10) ([] : List (α × ItemAnalysis)) [] initLevels
  refine ⟨rfl, rfl, ?_, ?_, ?_⟩
  · simp [processBatch, hloop]
  · intro c
    have hcat : (processBatch emails).analytics.categories
        = (((emails.take 10).filterMap Prod.snd).map ItemData.category).foldl bumpCategory [] := by
      simp [processBatch, hloop]
    rw [hcat, alistGet_foldl_bumpCategory, alistGet_nil, count_map_countP]
  · intro k hk
    have hurg : (processBatch emails).analytics.urgencyLevels
        = (((emails.take 10).filterMap Prod.snd).map ItemData.level).foldl bumpLevel initLevels := by
      simp [processBatch, hloop]
    have hinit : alistGet initLevels k = some (some 0) := by
      rcases hk with h | h | h | h <;> subst h <;> rfl
    rw [hurg, alistGet_foldl_bumpLevel _ _ _ 0 hinit, count_map_countP]
    simp

/-- C5 witness: the amended theorem applied to the concrete three-email
batch whose second item fails. -/
theorem processBatch_isolation_witness :
    (processBatch cexBatch).analytics.total = 3
    ∧ (processBatch cexBatch).processed.map Prod.snd
        = [ItemAnalysis.ok itemWork, ItemAnalysis.failed, ItemAnalysis.ok itemUrgent]
    ∧ alistGet (processBatch cexBatch).analytics.categories "urgent" = some 1
    ∧ alistGet (processBatch cexBatch).analytics.urgencyLevels "critical" = some (some 1) := by
  have h := processBatch_isolation_analytics cexBatch
  refine ⟨h.2.1, ?_, ?_, ?_⟩
  · rw [h.2.2.1]
    rfl
  · exact h.2.2.2.1 "urgent"
  · exact h.2.2.2.2 "critical" (Or.inr (Or.inr (Or.inr rfl)))

end EmailAgent
